import Mathlib

/-!
Shallow embedding of `src/main.py` of the Autonomous_startup_sim repository:
the configuration loader, the two model bindings, the `ProjectPlan` schema,
the agent registry, the task list, and the top-level script execution with
its single failure handler around `crew.kickoff`.
-/

namespace StartupSim

/-- The process environment as read at startup: the two credentials
`GEMINI_API_KEY` and `SERPER_API_KEY` (`none` when the variable is unset). -/
structure Env where
  gemini : Option String
  serper : Option String

/-- Python truthiness test used by `if not GEMINI_API_KEY:` (main.py line 13)
and `if not os.getenv("SERPER_API_KEY"):` (line 14): an unset variable
(`None`) and the empty string are both falsy. -/
def falsy : Option String → Bool
  | none => true
  | some s => s.isEmpty

/-- Identifiers for the four `Agent` objects constructed in main.py. -/
inductive AgentId
  | ceo
  | cto
  | researcher
  | writer
deriving DecidableEq

/-- Identifiers for the two `Task` objects constructed in main.py (the third
task, `task_final_report`, is commented out and never constructed). -/
inductive TaskId
  | plan
  | orchestrateAndWrite
deriving DecidableEq

/-- The one tool that can appear in an agent tool list (`SerperDevTool`). -/
inductive Tool
  | serperDev
deriving DecidableEq

/-- A model binding, `LLM(model=..., verbose=..., temperature=...,
google_api_key=...)` (main.py lines 18-30). The temperature is an exact
rational standing for the Python float literal. -/
structure LLM where
  model : String
  verbose : Bool
  temperature : Rat
  google_api_key : String

/-- The `GEMINI_API_KEY` value handed to the model bindings once the startup
check has passed. -/
def geminiKey (env : Env) : String := env.gemini.getD ""

/-- main.py line 15, printed only on the failing-startup path. -/
def serperLimitedWarning : String :=
  "WARNING: SERPER_API_KEY not found. Researcher will be limited."

/-- The `ValueError` message of main.py line 16. -/
def geminiMissingMsg : String :=
  "GEMINI_API_KEY not found in .env file. Please set it."

/-- main.py lines 18-23. -/
def manager_llm (env : Env) : LLM :=
  { model := "gemini/gemini-2.5-flash"
    verbose := true
    temperature := 7/10
    google_api_key := geminiKey env }

/-- main.py lines 25-30. -/
def worker_llm (env : Env) : LLM :=
  { model := "gemini/gemini-2.5-flash"
    verbose := true
    temperature := 2/10
    google_api_key := geminiKey env }

/-- The Python-side type annotations of the `ProjectPlan` pydantic fields. -/
inductive PyType
  | str
  | float
  | listStr
deriving DecidableEq

/-- JSON-Schema types appearing in the serialized schema. -/
inductive JsonType
  | string
  | number
  | array (items : JsonType)
deriving DecidableEq

/-- One pydantic `Field` declaration: name, annotated type, description. -/
structure PyField where
  name : String
  ty : PyType
  description : String

/-- The docstring of the `ProjectPlan` model (main.py line 35). -/
def ProjectPlan.doc : String := "A structured plan for the startup simulation project."

/-- The three `Field` declarations of `ProjectPlan`, in source order
(main.py lines 36-38). -/
def ProjectPlan.fields : List PyField :=
  [ { name := "target_market", ty := PyType.str,
      description := "The specific market segment to target (e.g., \x27sustainable coffee consumers in Berlin\x27)." },
    { name := "key_deliverables", ty := PyType.listStr,
      description := "List of 3-5 main deliverables (e.g., \x27Market Analysis Report\x27, \x27Brand Identity Concept\x27)." },
    { name := "budget_estimate_usd", ty := PyType.float,
      description := "The estimated cost to complete the project in USD, must be a number." } ]

/-- Modelled from the spec: pydantic (an external library, not part of this
repository) serializes each annotated field type to a JSON-Schema type:
`str` to string, `float` to number, `List[str]` to array of string
(spec 4.3 and spec 8: field name, type, description triplets). -/
def jsonTypeOf : PyType → JsonType
  | PyType.str => JsonType.string
  | PyType.float => JsonType.number
  | PyType.listStr => JsonType.array JsonType.string

/-- The (name, JSON type, description) triplets of the serialized
`ProjectPlan` schema. -/
def ProjectPlan.serializedFields : List (String × JsonType × String) :=
  ProjectPlan.fields.map (fun f => (f.name, jsonTypeOf f.ty, f.description))

def lbrace : String := "\x7b"

def rbrace : String := "\x7d"

def quoteStr (s : String) : String := "\"" ++ s ++ "\""

/-- Text of one JSON-Schema type, with the items object for arrays. -/
def renderJsonType : JsonType → String
  | JsonType.string => "\"type\": \"string\""
  | JsonType.number => "\"type\": \"number\""
  | JsonType.array t => "\"type\": \"array\", \"items\": " ++ lbrace ++ renderJsonType t ++ rbrace

/-- Text of one property entry of the serialized schema. -/
def renderProperty (f : String × JsonType × String) : String :=
  quoteStr f.1 ++ ": " ++ lbrace ++ "\"description\": " ++ quoteStr f.2.2 ++ ", "
    ++ renderJsonType f.2.1 ++ rbrace

/-- Modelled from the spec: `ProjectPlan.schema_json(indent=2)` of the
external pydantic library, rendered from the (name, type, description)
triplets of the model plus its title, docstring and required list
(spec 4.3); whitespace layout is not tracked, so the `indent` argument does
not change the rendered structure. -/
def ProjectPlan.schema_json (_indent : Nat) : String :=
  lbrace ++ "\"title\": \"ProjectPlan\", \"description\": " ++ quoteStr ProjectPlan.doc
    ++ ", \"type\": \"object\", \"properties\": " ++ lbrace
    ++ String.intercalate ", " (ProjectPlan.serializedFields.map renderProperty)
    ++ rbrace ++ ", \"required\": ["
    ++ String.intercalate ", " (ProjectPlan.fields.map (fun f => quoteStr f.name))
    ++ "]" ++ rbrace

/-- The search-tool initialization block of main.py lines 43-49: the import
and `SerperDevTool()` construction wrapped in `try/except`, with the
except-branch leaving `search_tool = None`. `SerperDevTool` belongs to the
external `crewai_tools` package. Modelled from the spec: initialization
succeeds exactly when the search credential `SERPER_API_KEY` is present
(spec 4.1, 7 and 8 tie the missing search credential to the disabled
capability). -/
def search_tool (env : Env) : Option Tool :=
  if falsy env.serper then none else some Tool.serperDev

/-- The line printed by the tool-initialization block: main.py line 46 on
success, line 49 on failure. -/
def searchInitMsg (env : Env) : String :=
  match search_tool env with
  | some _ => "Search Tool Initialized"
  | none => "WARNING: SerperDevTool not available. Researcher will not be able to search the web."

/-- One agent descriptor, as constructed by `Agent(...)`. -/
structure Agent where
  role : String
  goal : String
  backstory : String
  llm : LLM
  tools : List Tool
  allow_delegation : Bool
  verbose : Bool

/-- main.py lines 53-61. -/
def ceo_agent (env : Env) : Agent :=
  { role := "CEO & Project Manager"
    goal := "Oversee the entire project, ensuring all deliverables meet the goal. Must first output the final structured ProjectPlan."
    backstory := "You are a seasoned CEO, highly skilled at breaking down complex goals into actionable plans and managing your team to deliver high-quality, structured results."
    llm := manager_llm env
    tools := []
    allow_delegation := true
    verbose := true }

/-- main.py lines 63-71. -/
def cto_agent (env : Env) : Agent :=
  { role := "CTO & Technical Architect"
    goal := "Translate the CEO\x27s plan into a technical specification, manage the research and writing execution, and ensure tool usage is optimal."
    backstory := "A strategic CTO who excels at engineering workflows and optimizing resource allocation for efficiency and accuracy. You are the main delegator of worker tasks."
    llm := manager_llm env
    tools := []
    allow_delegation := true
    verbose := true }

/-- main.py lines 75-83; the tool list is `[search_tool] if search_tool
else []`. -/
def researcher_agent (env : Env) : Agent :=
  { role := "Market Research Specialist"
    goal := "Conduct thorough, up-to-date research on market trends, competitor analysis, consumer needs, **and sustainable coffee sourcing/supply chain logistics**."
    backstory := "A fast, efficient researcher using modern search tools to find the most accurate and relevant data."
    llm := worker_llm env
    tools := match search_tool env with
      | some t => [t]
      | none => []
    allow_delegation := false
    verbose := true }

/-- main.py lines 85-93. -/
def writer_agent (env : Env) : Agent :=
  { role := "Report Synthesizer and Writer"
    goal := "Consolidate all research findings into a clear, professional, and well-structured final report that is executive-ready."
    backstory := "An expert technical writer who transforms complex data into compelling, easy-to-read business reports."
    llm := worker_llm env
    tools := []
    allow_delegation := false
    verbose := true }

/-- The descriptor bound to each agent identifier. -/
def agentOf (env : Env) : AgentId → Agent
  | AgentId.ceo => ceo_agent env
  | AgentId.cto => cto_agent env
  | AgentId.researcher => researcher_agent env
  | AgentId.writer => writer_agent env

/-- One task descriptor, as constructed by `Task(...)`; the assigned agent
and the context entries are recorded by identifier. -/
structure Task where
  description : String
  expected_output : String
  agent : AgentId
  context : List TaskId
  output_file : String

/-- main.py lines 99-110 (the description is the Python adjacent-string
concatenation, including the `\x7bproject_request\x7d` placeholder). -/
def task_plan : Task :=
  { description := "Analyze the user request: \x27{project_request}\x27. Your first and most important step is to generate a comprehensive ProjectPlan using the provided Pydantic schema (ProjectPlan). This plan must be the *entire* output, formatted as a JSON object, and saved to the \x27project_plan.json\x27 file."
    expected_output := ProjectPlan.schema_json 2
    agent := AgentId.ceo
    context := []
    output_file := "project_plan.json" }

/-- main.py lines 114-129. -/
def task_orchestrate_and_write : Task :=
  { description := "You have the ProjectPlan from the CEO available in your context.Your job is to orchestrate the execution. First, delegate a focused **\x27Market Research & Sourcing Task\x27** to the **Researcher Agent**, specifically instructing them to research competitive pricing, digital strategy examples, AND sustainable European coffee supply chains. Once the research is complete (from the Researcher\x27s output), you MUST **synthesize all findings into a complete, executive-ready final report**. The report must be professional, use markdown for formatting, and directly address all key deliverables in the plan. **This final report must be the ENTIRE output of this task, saved to \x27final_report.md\x27.**"
    expected_output := "A professionally written, 10-paragraph minimum, markdown report saved to \x27final_report.md\x27."
    agent := AgentId.cto
    context := [TaskId.plan]
    output_file := "final_report.md" }

/-- The descriptor bound to each task identifier. -/
def taskOf : TaskId → Task
  | TaskId.plan => task_plan
  | TaskId.orchestrateAndWrite => task_orchestrate_and_write

/-- main.py lines 147-152. -/
def PROJECT_REQUEST : String :=
  "Develop a **full-spectrum market entry and growth strategy** for a new line of premium, sustainable coffee capsules in **Berlin and Amsterdam**. The strategy must include: a comprehensive competitor analysis, a detailed pricing model, a 12-month digital marketing plan (including content themes), and a **sourcing/supply chain recommendation**."

/-- The orchestration mode passed as `process=`. -/
inductive ProcessKind
  | sequential
  | hierarchical
deriving DecidableEq

/-- The crew configuration handed to the orchestrator. -/
structure Crew where
  agents : List AgentId
  tasks : List TaskId
  process : ProcessKind
  manager_agent : AgentId
  manager_llm : LLM
  verbose : Bool

/-- main.py lines 155-162: the crew, with `manager_agent=ceo_agent` passed
separately from the `agents` list. -/
def crew (env : Env) : Crew :=
  { agents := [AgentId.cto, AgentId.researcher, AgentId.writer]
    tasks := [TaskId.plan, TaskId.orchestrateAndWrite]
    process := ProcessKind.hierarchical
    manager_agent := AgentId.ceo
    manager_llm := manager_llm env
    verbose := true }

/-- The separator line printed around the project banner. -/
def sepLine : String := "------------------------------------------"

/-- The remediation hint of main.py line 177. -/
def remediationMsg : String :=
  "Check your .env file for the GEMINI_API_KEY, and ensure you have either a SERPER_API_KEY or have removed the search tool."

/-- The agent objects constructed by a successful startup, in source order. -/
def allAgents : List AgentId :=
  [AgentId.ceo, AgentId.cto, AgentId.researcher, AgentId.writer]

/-- The task objects constructed by a successful startup, in declaration
order. -/
def allTasks : List TaskId := [TaskId.plan, TaskId.orchestrateAndWrite]

/-- Observable outcome of one execution of the main.py script:
what was printed before and after the `crew.kickoff` call, the process exit
code, which agent and task objects were constructed, whether the external
search-tool initialization and the kickoff call were reached, and the
message of an uncaught exception when one escapes. -/
structure ProcessOutcome where
  startupPrinted : List String
  runPrinted : List String
  exitCode : Nat
  agentsBuilt : List AgentId
  tasksBuilt : List TaskId
  searchInitAttempted : Bool
  kickoffAttempted : Bool
  uncaughtError : Option String

/-- Execution of the main.py script over an environment. The external
`crew.kickoff` call is a black box represented by `kick`: either a result
object rendered as text, or a raised exception message caught by the
`try/except` of lines 169-177. When `GEMINI_API_KEY` is falsy, line 16
raises `ValueError` before any model binding, agent, task or crew object is
constructed, and the uncaught exception terminates the interpreter with
exit code 1; otherwise the script runs to completion and exits 0, the
except-branch printing the error and the remediation hint instead of
re-raising. -/
def runMain (env : Env) (kick : Except String String) : ProcessOutcome :=
  if falsy env.gemini then
    { startupPrinted := if falsy env.serper then [serperLimitedWarning] else []
      runPrinted := []
      exitCode := 1
      agentsBuilt := []
      tasksBuilt := []
      searchInitAttempted := false
      kickoffAttempted := false
      uncaughtError := some geminiMissingMsg }
  else
    { startupPrinted :=
        [searchInitMsg env,
         "Starting the Autonomous Startup Simulator...",
         sepLine,
         "Project: " ++ PROJECT_REQUEST,
         sepLine]
      runPrinted :=
        match kick with
        | Except.ok r =>
            ["\n\n################################################",
             "## SIMULATION COMPLETE",
             "################################################",
             r]
        | Except.error e =>
            ["\n\n--- SIMULATION ERROR ---\n" ++ e, remediationMsg]
      exitCode := 0
      agentsBuilt := allAgents
      tasksBuilt := allTasks
      searchInitAttempted := true
      kickoffAttempted := true
      uncaughtError := none }

/-- A printed line counts as a warning when it carries the `WARNING` tag the
script uses for its two degraded-mode messages (the line starts with the
seven characters of `WARNING`). -/
def isWarningLine (s : String) : Bool := s.data.take 7 == "WARNING".data

/-- Number of warning lines in a printed transcript. -/
def warningCount (out : List String) : Nat := (out.filter isWarningLine).length

/-- A concrete environment with both credentials present. -/
def envDefault : Env := { gemini := some "gemini-key", serper := some "serper-key" }

/-- A concrete environment missing the primary credential. -/
def envNoGemini : Env := { gemini := none, serper := some "serper-key" }

/-- A concrete environment with the primary credential but no search
credential. -/
def envNoSerper : Env := { gemini := some "gemini-key", serper := none }

/-- C1 counterexample: the conjunction claimed — the designated manager is a
member of the crew agent list, has delegation enabled, both workers have
delegation disabled, and every task agent is in that list — is false for
the constructed crew: `manager_agent` (the CEO) is passed separately and is
not in `agents=[cto_agent, researcher_agent, writer_agent]`, and the first
task is assigned to that same CEO agent. -/
theorem C1_counterexample :
    ¬((crew envDefault).manager_agent ∈ (crew envDefault).agents ∧
      (agentOf envDefault (crew envDefault).manager_agent).allow_delegation = true ∧
      (agentOf envDefault AgentId.researcher).allow_delegation = false ∧
      (agentOf envDefault AgentId.writer).allow_delegation = false ∧
      ∀ t ∈ (crew envDefault).tasks, (taskOf t).agent ∈ (crew envDefault).agents) := by
  intro h
  exact absurd h.1 (by decide)

/-- C1 (amended): the designated top-level manager is the CEO agent, which
has its delegation-allowed flag true but is NOT a member of the crew agent
list (it is passed separately as `manager_agent`); both worker agents have
delegation disabled; the second task is assigned to an agent in the list,
while the first task is assigned to the manager agent itself, which is
outside the list. -/
theorem C1_manager_outside_agent_list (env : Env) :
    (crew env).manager_agent = AgentId.ceo ∧
    (crew env).manager_agent ∉ (crew env).agents ∧
    (agentOf env (crew env).manager_agent).allow_delegation = true ∧
    (agentOf env AgentId.researcher).allow_delegation = false ∧
    (agentOf env AgentId.writer).allow_delegation = false ∧
    (taskOf TaskId.orchestrateAndWrite).agent ∈ (crew env).agents ∧
    (taskOf TaskId.plan).agent = (crew env).manager_agent ∧
    (taskOf TaskId.plan).agent ∉ (crew env).agents := by
  refine ⟨rfl, ?_, rfl, rfl, rfl, ?_, rfl, ?_⟩
  · show AgentId.ceo ∉ [AgentId.cto, AgentId.researcher, AgentId.writer]
    decide
  · show AgentId.cto ∈ [AgentId.cto, AgentId.researcher, AgentId.writer]
    decide
  · show AgentId.ceo ∉ [AgentId.cto, AgentId.researcher, AgentId.writer]
    decide

/-- C2: whenever `GEMINI_API_KEY` is absent, startup raises the descriptive
`ValueError` of line 16 before any agent or task object is constructed, the
search-tool initialization and the kickoff call (the only network-touching
steps) are never reached, and the process exits non-zero. -/
theorem C2_missing_gemini_fails_fast (env : Env) (kick : Except String String)
    (h : env.gemini = none) :
    (runMain env kick).uncaughtError = some geminiMissingMsg ∧
    geminiMissingMsg ≠ "" ∧
    (runMain env kick).agentsBuilt = [] ∧
    (runMain env kick).tasksBuilt = [] ∧
    (runMain env kick).searchInitAttempted = false ∧
    (runMain env kick).kickoffAttempted = false ∧
    (runMain env kick).exitCode ≠ 0 := by
  simp [runMain, h, falsy, geminiMissingMsg]

/-- C2 witness: the theorem applied to the concrete environment with
`GEMINI_API_KEY` unset. -/
theorem C2_witness :
    (runMain envNoGemini (Except.ok "r")).uncaughtError = some geminiMissingMsg ∧
    geminiMissingMsg ≠ "" ∧
    (runMain envNoGemini (Except.ok "r")).agentsBuilt = [] ∧
    (runMain envNoGemini (Except.ok "r")).tasksBuilt = [] ∧
    (runMain envNoGemini (Except.ok "r")).searchInitAttempted = false ∧
    (runMain envNoGemini (Except.ok "r")).kickoffAttempted = false ∧
    (runMain envNoGemini (Except.ok "r")).exitCode ≠ 0 :=
  C2_missing_gemini_fails_fast envNoGemini (Except.ok "r") rfl

/-- C3: the serialized `ProjectPlan` schema has exactly three fields —
`target_market` of type string, `key_deliverables` of type array of string,
`budget_estimate_usd` of type number — and every field carries a non-empty
description string. -/
theorem C3_schema_fields :
    ProjectPlan.serializedFields.map (fun f => (f.1, f.2.1)) =
      [("target_market", JsonType.string),
       ("key_deliverables", JsonType.array JsonType.string),
       ("budget_estimate_usd", JsonType.number)] ∧
    ∀ f ∈ ProjectPlan.serializedFields, f.2.2 ≠ "" := by
  decide

/-- C4: whenever `SERPER_API_KEY` is absent but the primary credential is
present, startup completes (no uncaught error; all four agents and both
tasks are constructed), the researcher agent tool list is empty, and
exactly one warning line is printed during startup. -/
theorem C4_missing_serper_degrades (env : Env) (kick : Except String String)
    (hg : falsy env.gemini = false) (hs : env.serper = none) :
    (runMain env kick).uncaughtError = none ∧
    (runMain env kick).agentsBuilt = allAgents ∧
    (runMain env kick).tasksBuilt = allTasks ∧
    (researcher_agent env).tools = [] ∧
    warningCount (runMain env kick).startupPrinted = 1 := by
  have hb : falsy env.serper = true := by rw [hs]; rfl
  have hsearch : search_tool env = none := by simp [search_tool, hb]
  have hmsg : searchInitMsg env =
      "WARNING: SerperDevTool not available. Researcher will not be able to search the web." := by
    simp [searchInitMsg, hsearch]
  refine ⟨?_, ?_, ?_, ?_, ?_⟩
  · simp [runMain, hg]
  · simp [runMain, hg]
  · simp [runMain, hg]
  · simp [researcher_agent, hsearch]
  · simp only [runMain, hg, Bool.false_eq_true, if_false, hmsg]
    decide

/-- C4 witness: the theorem applied to the concrete environment with the
primary credential set and `SERPER_API_KEY` unset. -/
theorem C4_witness :
    (runMain envNoSerper (Except.ok "r")).uncaughtError = none ∧
    (runMain envNoSerper (Except.ok "r")).agentsBuilt = allAgents ∧
    (runMain envNoSerper (Except.ok "r")).tasksBuilt = allTasks ∧
    (researcher_agent envNoSerper).tools = [] ∧
    warningCount (runMain envNoSerper (Except.ok "r")).startupPrinted = 1 :=
  C4_missing_serper_degrades envNoSerper (Except.ok "r") rfl rfl

/-- C5 counterexample: in a successful run over the default environment,
the number of agent descriptors constructed is not five (it is four: CEO,
CTO, researcher, writer). -/
theorem C5_counterexample :
    ¬((runMain envDefault (Except.ok "done")).agentsBuilt.length = 5) := by
  decide

/-- C5 (amended): exactly four agent descriptors are constructed and exist
for the lifetime of one run — two manager agents with delegation enabled,
two worker agents with delegation disabled — and one of the four (the
writer) has no task assigned in the active task list. -/
theorem C5_four_agents (env : Env) (kick : Except String String)
    (hg : falsy env.gemini = false) :
    (runMain env kick).agentsBuilt = allAgents ∧
    (runMain env kick).agentsBuilt.length = 4 ∧
    (agentOf env AgentId.ceo).allow_delegation = true ∧
    (agentOf env AgentId.cto).allow_delegation = true ∧
    (agentOf env AgentId.researcher).allow_delegation = false ∧
    (agentOf env AgentId.writer).allow_delegation = false ∧
    ∀ t ∈ (crew env).tasks, (taskOf t).agent ≠ AgentId.writer := by
  refine ⟨?_, ?_, rfl, rfl, rfl, rfl, ?_⟩
  · simp [runMain, hg]
  · simp [runMain, hg, allAgents]
  · show ∀ t ∈ [TaskId.plan, TaskId.orchestrateAndWrite], (taskOf t).agent ≠ AgentId.writer
    decide

/-- C5 witness: the amended theorem applied to the default environment. -/
theorem C5_witness :
    (runMain envDefault (Except.ok "done")).agentsBuilt = allAgents ∧
    (runMain envDefault (Except.ok "done")).agentsBuilt.length = 4 ∧
    (agentOf envDefault AgentId.ceo).allow_delegation = true ∧
    (agentOf envDefault AgentId.cto).allow_delegation = true ∧
    (agentOf envDefault AgentId.researcher).allow_delegation = false ∧
    (agentOf envDefault AgentId.writer).allow_delegation = false ∧
    ∀ t ∈ (crew envDefault).tasks, (taskOf t).agent ≠ AgentId.writer :=
  C5_four_agents envDefault (Except.ok "done") rfl

/-- C6: the second task declares exactly the first task as its context, the
first task has an empty context, and, over the declaration order, no task
context entry refers to the task itself or to a task declared later. -/
theorem C6_task_contexts :
    (taskOf TaskId.plan).context = [] ∧
    (taskOf TaskId.orchestrateAndWrite).context = [TaskId.plan] ∧
    ∀ i : Fin allTasks.length, ∀ c ∈ (taskOf (allTasks.get i)).context,
      ∃ j : Fin allTasks.length, j.val < i.val ∧ allTasks.get j = c := by
  decide

/-- C7: for every error raised by the single `crew.kickoff` invocation, the
one top-level handler catches it, prints the error message followed by the
generic remediation hint — the same undifferentiated output shape for every
error — and does not re-raise. -/
theorem C7_single_toplevel_handler (env : Env) (e : String)
    (hg : falsy env.gemini = false) :
    (runMain env (Except.error e)).uncaughtError = none ∧
    (runMain env (Except.error e)).exitCode = 0 ∧
    (runMain env (Except.error e)).runPrinted =
      ["\n\n--- SIMULATION ERROR ---\n" ++ e, remediationMsg] := by
  refine ⟨?_, ?_, ?_⟩ <;> simp [runMain, hg]

/-- C7 witness: the theorem applied to the default environment and a
concrete kickoff error. -/
theorem C7_witness :
    (runMain envDefault (Except.error "boom")).uncaughtError = none ∧
    (runMain envDefault (Except.error "boom")).exitCode = 0 ∧
    (runMain envDefault (Except.error "boom")).runPrinted =
      ["\n\n--- SIMULATION ERROR ---\n" ++ "boom", remediationMsg] :=
  C7_single_toplevel_handler envDefault "boom" rfl

/-- C9: when the orchestrator invocation raises and is caught by the
top-level handler, the process terminates with exit status zero and no
uncaught exception, in contrast to the non-zero exit of the
missing-primary-credential startup failure. -/
theorem C9_exit_status_contrast (env env2 : Env) (e : String)
    (kick : Except String String)
    (hg : falsy env.gemini = false) (hg2 : env2.gemini = none) :
    (runMain env (Except.error e)).exitCode = 0 ∧
    (runMain env (Except.error e)).uncaughtError = none ∧
    (runMain env2 kick).exitCode ≠ 0 := by
  have hb : falsy env2.gemini = true := by rw [hg2]; rfl
  refine ⟨?_, ?_, ?_⟩
  · simp [runMain, hg]
  · simp [runMain, hg]
  · simp [runMain, hb]

/-- C9 witness: the theorem applied to the default environment, a concrete
kickoff error, and the environment with `GEMINI_API_KEY` unset. -/
theorem C9_witness :
    (runMain envDefault (Except.error "boom")).exitCode = 0 ∧
    (runMain envDefault (Except.error "boom")).uncaughtError = none ∧
    (runMain envNoGemini (Except.ok "r")).exitCode ≠ 0 :=
  C9_exit_status_contrast envDefault envNoGemini "boom" (Except.ok "r") rfl rfl

/-- C8: the expected-output string of the planning task is literally the
JSON-Schema serialization of the `ProjectPlan` type with indent 2. -/
theorem C8_expected_output_is_schema :
    task_plan.expected_output = ProjectPlan.schema_json 2 := rfl

/-- C10: the writer agent, whose task is commented out, is nonetheless a
member of the agent list handed to the orchestrator in every run, while no
task in the active task list is assigned to it. -/
theorem C10_writer_in_crew (env : Env) :
    AgentId.writer ∈ (crew env).agents ∧
    ∀ t ∈ (crew env).tasks, (taskOf t).agent ≠ AgentId.writer := by
  refine ⟨?_, ?_⟩
  · show AgentId.writer ∈ [AgentId.cto, AgentId.researcher, AgentId.writer]
    decide
  · show ∀ t ∈ [TaskId.plan, TaskId.orchestrateAndWrite], (taskOf t).agent ≠ AgentId.writer
    decide

end StartupSim
